import Mathlib

/-!
Verification development for the `cx_core_schemas` package
(`connector_script.py`, `notebook.py`): a shallow embedding of the
pydantic data models and their construction-time validation, together
with theorems about the properties the models are documented to have.

Modelling conventions:
* A pydantic model is embedded as a Lean structure holding the
  already-validated field values.  Construction from raw input is a
  function `Raw… → Except String …`: pydantic field validation (required
  fields, defaults) runs first, in field-declaration order and
  short-circuiting at the first failing field, then the
  `model_validator(mode="after")` hooks run.
* A raw field that may be absent is an `Option`; absence of a field with
  a declared default makes the default apply.
* `Dict[str, Any]` values are embedded as association lists over a small
  JSON-like `Value` type.
* Python strings are Lean `String`s; `str.lower()` is modelled on the
  ASCII range (code points 65–90 map to 97–122, everything else is
  unchanged), which is what CPython computes on ASCII input.
-/

namespace CxCoreSchemas

/-- A JSON-like value, standing in for Python `Any` in `Dict[str, Any]`
fields. -/
inductive Value where
  | str : String → Value
  | num : Int → Value
  | bool : Bool → Value
  | null : Value
  | list : List Value → Value
  | obj : List (String × Value) → Value

/-- Embeds `RunSqlQueryAction`: required `query`, `parameters` defaulting
to the empty dict. -/
structure RunSqlQueryAction where
  query : String
  parameters : List (String × Value)

/-- Embeds `TestConnectionAction`: no fields beyond the tag. -/
structure TestConnectionAction where

/-- Embeds `BrowsePathAction`: `path` defaults to "/". -/
structure BrowsePathAction where
  path : String

/-- Embeds `ReadContentAction`: required `path`. -/
structure ReadContentAction where
  path : String

/-- Embeds `RunDeclarativeAction`: required `template_key`, `context`
defaulting to the empty dict. -/
structure RunDeclarativeAction where
  template_key : String
  context : List (String × Value)

/-- Embeds `AggregateContentAction`: optional `source_paths` and
`source_results`, required `target_path`, optional `header_template`,
`metadata` defaulting to the empty dict. -/
structure AggregateContentAction where
  source_paths : Option (List String)
  source_results : Option (List String)
  target_path : String
  header_template : Option String
  metadata : List (String × Value)

/-- Embeds `RunPythonScriptAction`: required `script_path`,
`input_data_json` defaulting to the string "\x7b\x7d". -/
structure RunPythonScriptAction where
  script_path : String
  input_data_json : String

/-- Embeds `FileToWrite`: required `path` and `content`. -/
structure FileToWrite where
  path : String
  content : String

/-- Embeds `WriteFilesAction`: required list of `FileToWrite`. -/
structure WriteFilesAction where
  files : List FileToWrite

/-- Embeds `RunTransformAction`: required `script_path`, `input_data`
defaulting to the empty dict. -/
structure RunTransformAction where
  script_path : String
  input_data : List (String × Value)

/-- Embeds the discriminated union `AnyConnectorAction`: exactly the nine
declared variants. -/
inductive AnyConnectorAction where
  | test_connection : TestConnectionAction → AnyConnectorAction
  | browse_path : BrowsePathAction → AnyConnectorAction
  | read_content : ReadContentAction → AnyConnectorAction
  | run_sql_query : RunSqlQueryAction → AnyConnectorAction
  | run_declarative_action : RunDeclarativeAction → AnyConnectorAction
  | aggregate_content : AggregateContentAction → AnyConnectorAction
  | run_python_script : RunPythonScriptAction → AnyConnectorAction
  | write_files : WriteFilesAction → AnyConnectorAction
  | run_transform : RunTransformAction → AnyConnectorAction

/-- Raw (pre-validation) input for a `FileToWrite`. -/
structure RawFileToWrite where
  path : Option String := none
  content : Option String := none

/-- Raw (pre-validation) input for an action: the `action` discriminator
tag plus every field any variant may carry, each possibly absent. -/
structure RawAction where
  action : String
  query : Option String := none
  parameters : Option (List (String × Value)) := none
  path : Option String := none
  template_key : Option String := none
  context : Option (List (String × Value)) := none
  source_paths : Option (List String) := none
  source_results : Option (List String) := none
  target_path : Option String := none
  header_template : Option String := none
  metadata : Option (List (String × Value)) := none
  script_path : Option String := none
  input_data_json : Option String := none
  files : Option (List RawFileToWrite) := none
  input_data : Option (List (String × Value)) := none

/-- A required pydantic field: absence is a validation error. -/
def requiredField {α : Type} (v : Option α) (fieldName : String) :
    Except String α :=
  match v with
  | some x => Except.ok x
  | none => Except.error ("Field required: " ++ fieldName)

/-- Python truthiness of an `Optional[List[...]]` value: `None` and the
empty list are falsy. -/
def truthyOptList {α : Type} : Option (List α) → Bool
  | none => false
  | some l => !l.isEmpty

/-- Embeds `AggregateContentAction.check_at_least_one_source`: the
`model_validator(mode="after")` that raises unless at least one of
`source_paths` / `source_results` is truthy. -/
def check_at_least_one_source (a : AggregateContentAction) :
    Except String AggregateContentAction :=
  if !truthyOptList a.source_paths && !truthyOptList a.source_results then
    Except.error
      "At least one of source_paths or source_results must be provided."
  else
    Except.ok a

/-- Field validation for `RunSqlQueryAction`. -/
def mkRunSqlQueryAction (r : RawAction) : Except String RunSqlQueryAction := do
  let q ← requiredField r.query "query"
  Except.ok { query := q, parameters := r.parameters.getD [] }

/-- Field validation for `TestConnectionAction`. -/
def mkTestConnectionAction (_r : RawAction) :
    Except String TestConnectionAction :=
  Except.ok {}

/-- Field validation for `BrowsePathAction`: `path` defaults to "/". -/
def mkBrowsePathAction (r : RawAction) : Except String BrowsePathAction :=
  Except.ok { path := r.path.getD "/" }

/-- Field validation for `ReadContentAction`. -/
def mkReadContentAction (r : RawAction) : Except String ReadContentAction := do
  let p ← requiredField r.path "path"
  Except.ok { path := p }

/-- Field validation for `RunDeclarativeAction`. -/
def mkRunDeclarativeAction (r : RawAction) :
    Except String RunDeclarativeAction := do
  let k ← requiredField r.template_key "template_key"
  Except.ok { template_key := k, context := r.context.getD [] }

/-- Construction of `AggregateContentAction`: field validation followed by
the `check_at_least_one_source` model validator. -/
def mkAggregateContentAction (r : RawAction) :
    Except String AggregateContentAction := do
  let tp ← requiredField r.target_path "target_path"
  check_at_least_one_source
    { source_paths := r.source_paths
      source_results := r.source_results
      target_path := tp
      header_template := r.header_template
      metadata := r.metadata.getD [] }

/-- Field validation for `RunPythonScriptAction`. -/
def mkRunPythonScriptAction (r : RawAction) :
    Except String RunPythonScriptAction := do
  let sp ← requiredField r.script_path "script_path"
  Except.ok { script_path := sp
              input_data_json := r.input_data_json.getD "\x7b\x7d" }

/-- Field validation for `FileToWrite`. -/
def mkFileToWrite (r : RawFileToWrite) : Except String FileToWrite := do
  let p ← requiredField r.path "path"
  let c ← requiredField r.content "content"
  Except.ok { path := p, content := c }

/-- Field validation for `WriteFilesAction`. -/
def mkWriteFilesAction (r : RawAction) : Except String WriteFilesAction := do
  let rawFiles ← requiredField r.files "files"
  let fs ← rawFiles.mapM mkFileToWrite
  Except.ok { files := fs }

/-- Field validation for `RunTransformAction`. -/
def mkRunTransformAction (r : RawAction) :
    Except String RunTransformAction := do
  let sp ← requiredField r.script_path "script_path"
  Except.ok { script_path := sp, input_data := r.input_data.getD [] }

/-- Embeds validation of the discriminated union `AnyConnectorAction`
(`Field(..., discriminator="action")`): dispatch on the `action` tag;
an unrecognised tag is a validation error, before any step executes. -/
def parseAction (r : RawAction) : Except String AnyConnectorAction :=
  match r.action with
  | "test_connection" => (mkTestConnectionAction r).map .test_connection
  | "browse_path" => (mkBrowsePathAction r).map .browse_path
  | "read_content" => (mkReadContentAction r).map .read_content
  | "run_sql_query" => (mkRunSqlQueryAction r).map .run_sql_query
  | "run_declarative_action" =>
      (mkRunDeclarativeAction r).map .run_declarative_action
  | "aggregate_content" => (mkAggregateContentAction r).map .aggregate_content
  | "run_python_script" => (mkRunPythonScriptAction r).map .run_python_script
  | "write_files" => (mkWriteFilesAction r).map .write_files
  | "run_transform" => (mkRunTransformAction r).map .run_transform
  | other =>
      Except.error ("Input tag " ++ other ++
        " found using action does not match any of the expected tags")

/-- The nine declared discriminator tags of `AnyConnectorAction`. -/
def declaredActionTags : List String :=
  ["test_connection", "browse_path", "read_content", "run_sql_query",
   "run_declarative_action", "aggregate_content", "run_python_script",
   "write_files", "run_transform"]

/-- One character of the default-id derivation
`name.replace(" ", "_").replace("-", "_")`: both replacements act on
disjoint single characters, so they fuse into one character map. -/
def replaceSpaceHyphenChar (c : Char) : Char :=
  if c = ' ' ∨ c = '-' then '_' else c

/-- One character of Python `str.lower()`, modelled on the ASCII range:
code points 65–90 map to 97–122; every other code point is unchanged. -/
def pyLowerChar (c : Char) : Char :=
  if 65 ≤ c.toNat ∧ c.toNat ≤ 90 then Char.ofNat (c.toNat + 32) else c

/-- The default-id derivation of `ConnectorStep.set_default_id`:
`name.replace(" ", "_").replace("-", "_").lower()`. -/
def slugify (s : String) : String :=
  String.mk ((s.toList.map replaceSpaceHyphenChar).map pyLowerChar)

/-- Raw (pre-validation) input for a `ConnectorStep`. -/
structure RawStep where
  id : Option String := none
  name : Option String := none
  description : Option String := none
  connection_source : Option String := none
  run : Option RawAction := none
  outputs : Option (List (String × String)) := none
  depends_on : Option (List String) := none
  if_condition : Option String := none
  cache_config : Option (List (String × Value)) := none

/-- Embeds `ConnectorStep`.  The `id` field is annotated `str` and carries
no default, but it is stored here as the Python runtime value an
`is None` test can inspect, because `set_default_id` performs exactly
that test. -/
structure ConnectorStep where
  id : Option String
  name : String
  description : Option String
  connection_source : String
  run : AnyConnectorAction
  outputs : Option (List (String × String))
  depends_on : Option (List String)
  if_condition : Option String
  cache_config : Option (List (String × Value))

/-- Embeds `ConnectorStep.set_default_id`: if `self.id is None`, assign
the slug of the name; otherwise leave the model unchanged. -/
def set_default_id (s : ConnectorStep) : ConnectorStep :=
  match s.id with
  | none => { s with id := some (slugify s.name) }
  | some _ => s

/-- Pydantic field validation for `ConnectorStep`, in field-declaration
order: `id`, `name` and `connection_source` are required strings, `run`
is a required discriminated-union value. -/
def stepFieldValidate (r : RawStep) : Except String ConnectorStep := do
  let i ← requiredField r.id "id"
  let n ← requiredField r.name "name"
  let cs ← requiredField r.connection_source "connection_source"
  let rawRun ← requiredField r.run "run"
  let a ← parseAction rawRun
  Except.ok { id := some i
              name := n
              description := r.description
              connection_source := cs
              run := a
              outputs := r.outputs
              depends_on := r.depends_on
              if_condition := r.if_condition
              cache_config := r.cache_config }

/-- Construction of a `ConnectorStep`: field validation, then the
`set_default_id` model validator. -/
def mkConnectorStep (r : RawStep) : Except String ConnectorStep :=
  (stepFieldValidate r).map set_default_id

/-- Raw (pre-validation) input for a `ConnectorScript`. -/
structure RawScript where
  name : Option String := none
  description : Option String := none
  steps : Option (List RawStep) := none
  cache_config : Option (List (String × Value)) := none
  script_input : Option (List (String × Value)) := none

/-- Embeds `ConnectorScript`: name, optional description, list of steps,
optional cache config, and `script_input : Optional[Dict[str, Any]]`
with `default_factory=dict`. -/
structure ConnectorScript where
  name : String
  description : Option String
  steps : List ConnectorStep
  cache_config : Option (List (String × Value))
  script_input : Option (List (String × Value))

/-- Construction of a `ConnectorScript`: `name` and `steps` are required,
each step is validated in order, `script_input` defaults to the empty
dict.  `ConnectorScript` declares no model validator of its own. -/
def mkConnectorScript (r : RawScript) : Except String ConnectorScript := do
  let n ← requiredField r.name "name"
  let rawSteps ← requiredField r.steps "steps"
  let steps ← rawSteps.mapM mkConnectorStep
  Except.ok { name := n
              description := r.description
              steps := steps
              cache_config := r.cache_config
              script_input := some (r.script_input.getD []) }

/-- The names defined at top level of the `connector_script` module
(classes and the union alias): the names an import from that module can
resolve. -/
def connectorScriptModuleNames : List String :=
  ["RunSqlQueryAction", "TestConnectionAction", "BrowsePathAction",
   "ReadContentAction", "RunDeclarativeAction", "AggregateContentAction",
   "RunPythonScriptAction", "FileToWrite", "WriteFilesAction",
   "RunTransformAction", "AnyConnectorAction", "ConnectorStep",
   "ConnectorScript"]

/-- The names the `notebook` module imports from `connector_script`
(`from .connector_script import ScriptInputParameter, ConnectorStep`). -/
def notebookImportedNames : List String :=
  ["ScriptInputParameter", "ConnectorStep"]

/-- Embeds importing the `notebook` module: every imported name must be
defined in `connector_script`, otherwise the import raises. -/
def importNotebookModule : Except String Unit :=
  if notebookImportedNames.all (fun n =>
      connectorScriptModuleNames.contains n) then
    Except.ok ()
  else
    Except.error "ImportError: cannot import name ScriptInputParameter"

/-- Raw (pre-validation) input for a `ContextualPage`. -/
structure RawPage where
  id : Option String := none
  name : Option String := none
  description : Option String := none
  inputs : Option (List (String × Value)) := none
  blocks : Option (List RawStep) := none
  version : Option String := none
  author : Option String := none
  tags : Option (List String) := none

/-- Embeds `ContextualPage` from `notebook.py`.  The `inputs` field is
annotated `Dict[str, ScriptInputParameter]`; since `connector_script`
defines no `ScriptInputParameter`, the values are embedded as plain
`Value`s. -/
structure ContextualPage where
  id : Option String
  name : String
  description : Option String
  inputs : List (String × Value)
  blocks : List ConnectorStep
  version : String
  author : Option String
  tags : List String

/-- Field validation for `ContextualPage`: required `name` and `blocks`,
defaults for the rest. -/
def pageFieldValidate (r : RawPage) : Except String ContextualPage := do
  let n ← requiredField r.name "name"
  let rawBlocks ← requiredField r.blocks "blocks"
  let bs ← rawBlocks.mapM mkConnectorStep
  Except.ok { id := r.id
              name := n
              description := r.description
              inputs := r.inputs.getD []
              blocks := bs
              version := r.version.getD "1.0.0"
              author := r.author
              tags := r.tags.getD [] }

/-- Constructing a `ContextualPage` requires the `notebook` module to have
been imported successfully first: the class only exists once its module
loads. -/
def mkContextualPage (r : RawPage) : Except String ContextualPage := do
  importNotebookModule
  pageFieldValidate r

/-- Modelled from the spec: a script-input parameter spec is a mapping
carrying a type, a required flag and a default value ("optional
input-parameter schema (name → parameter spec: type, required,
default)").  No such type exists in the source. -/
def isParamSpecValue : Value → Bool
  | Value.obj fields =>
      fields.any (fun p => p.1 = "type") &&
      fields.any (fun p => p.1 = "required") &&
      fields.any (fun p => p.1 = "default")
  | _ => false

/-! ## Helper lemmas -/

theorem toNat_ofNat_valid (n : Nat) (h : n < 55296) :
    (Char.ofNat n).toNat = n := by
  simp [Char.ofNat, Nat.isValidChar, h, Char.ofNatAux, Char.toNat,
    UInt32.toNat, BitVec.toNat_ofNatLt]

theorem eq_char_iff_toNat (c d : Char) : c = d ↔ c.toNat = d.toNat := by
  constructor
  · intro h; rw [h]
  · intro h
    have h1 : Char.ofNat c.toNat = Char.ofNat d.toNat := by rw [h]
    rwa [Char.ofNat_toNat, Char.ofNat_toNat] at h1

theorem pyLowerChar_cases (c : Char) :
    (pyLowerChar c).toNat = c.toNat + 32 ∧ 65 ≤ c.toNat ∧ c.toNat ≤ 90 ∨
      pyLowerChar c = c ∧ ¬(65 ≤ c.toNat ∧ c.toNat ≤ 90) := by
  unfold pyLowerChar
  split
  · next h => exact Or.inl ⟨toNat_ofNat_valid (c.toNat + 32) (by omega), h⟩
  · next h => exact Or.inr ⟨rfl, h⟩

theorem repl_cases (c : Char) :
    replaceSpaceHyphenChar c = '_' ∨
      replaceSpaceHyphenChar c = c ∧ c.toNat ≠ 32 ∧ c.toNat ≠ 45 := by
  unfold replaceSpaceHyphenChar
  split
  · exact Or.inl rfl
  · next h =>
    refine Or.inr ⟨rfl, ?_, ?_⟩ <;>
      { intro habs
        apply h
        rw [eq_char_iff_toNat c ' ', eq_char_iff_toNat c '-']
        simp
        omega }

theorem slugChar_fixed (c : Char) :
    pyLowerChar (replaceSpaceHyphenChar
      (pyLowerChar (replaceSpaceHyphenChar c))) =
      pyLowerChar (replaceSpaceHyphenChar c) := by
  rcases repl_cases c with h1 | ⟨h1, hs, hh⟩ <;> rw [h1]
  · decide
  · rcases pyLowerChar_cases c with ⟨h2, h3, h4⟩ | ⟨h2, h3⟩
    · have hfix : replaceSpaceHyphenChar (pyLowerChar c) = pyLowerChar c := by
        unfold replaceSpaceHyphenChar
        rw [if_neg]
        intro habs
        rcases habs with hx | hx <;>
          { rw [eq_char_iff_toNat] at hx
            revert hx
            simp [h2]
            omega }
      rw [hfix]
      rcases pyLowerChar_cases (pyLowerChar c) with ⟨_, hu, hv⟩ | ⟨hfix2, _⟩
      · omega
      · exact hfix2
    · rw [h2, h1, h2]

theorem bind_ok {α β : Type} (x : Except String α) (f : α → Except String β)
    (b : β) (h : (x >>= f) = Except.ok b) :
    ∃ a, x = Except.ok a ∧ f a = Except.ok b := by
  cases x with
  | error e => exact absurd h (by simp [Bind.bind, Except.bind])
  | ok a => exact ⟨a, rfl, by simpa [Bind.bind, Except.bind] using h⟩

/-! ## Claim theorems -/

/-- C5: the default-identifier derivation
`name.replace(" ", "_").replace("-", "_").lower()` is a pure function
(it is a total Lean function of the input string alone) and is
idempotent: applying it to its own output returns the same string, for
every input name. -/
theorem C5_slugify_idempotent (s : String) : slugify (slugify s) = slugify s := by
  unfold slugify
  simp only [String.toList, List.map_map]
  congr 1
  induction s.data with
  | nil => rfl
  | cons c cs ih =>
    simp only [List.map_cons, List.cons.injEq, Function.comp_apply]
    exact ⟨slugChar_fixed c, by simpa [List.map_map] using ih⟩

/-- C5 witness: the derivation evaluated at a concrete name. -/
theorem C5_witness : slugify (slugify "My Step-Name") = slugify "My Step-Name" :=
  C5_slugify_idempotent "My Step-Name"

/-- C7: a `BrowsePathAction` validated from raw input that carries the
`browse_path` tag but no explicit `path` has `path = "/"`. -/
theorem C7_browse_path_default (r : RawAction) (h1 : r.action = "browse_path")
    (h2 : r.path = none) :
    parseAction r = Except.ok (AnyConnectorAction.browse_path { path := "/" }) := by
  unfold parseAction
  rw [h1]
  simp [mkBrowsePathAction, h2, Except.map]

/-- C7 witness: parsing the concrete raw action with only the tag. -/
theorem C7_witness :
    parseAction { action := "browse_path" } =
      Except.ok (AnyConnectorAction.browse_path { path := "/" }) :=
  C7_browse_path_default { action := "browse_path" } rfl rfl

/-- C9: the `check_at_least_one_source` validator tests Python
truthiness, not absence: constructing an `AggregateContentAction` with
`source_paths=[]` and `source_results=[]` (both present but empty) fails
with the same validation error as constructing it with both omitted. -/
theorem C9_empty_lists_rejected :
    mkAggregateContentAction
      { action := "aggregate_content", source_paths := some [],
        source_results := some [], target_path := some "vfs/out.md" } =
      Except.error
        "At least one of source_paths or source_results must be provided." ∧
    mkAggregateContentAction
      { action := "aggregate_content", target_path := some "vfs/out.md" } =
      Except.error
        "At least one of source_paths or source_results must be provided." :=
  ⟨rfl, rfl⟩

/-- C10: the `notebook` module imports `ScriptInputParameter` from
`connector_script`, which defines no such name; importing the module
always fails with an import error, and therefore constructing any
`ContextualPage` fails with that import error as well. -/
theorem C10_import_always_fails :
    importNotebookModule =
      Except.error "ImportError: cannot import name ScriptInputParameter" ∧
    ∀ r : RawPage, mkContextualPage r =
      Except.error "ImportError: cannot import name ScriptInputParameter" :=
  ⟨rfl, fun _ => rfl⟩

/-- C1 counterexample: a concrete step constructed without an `id`
(name, connection source and action all valid) is rejected by field
validation instead of receiving the name-derived id the claim
promises. -/
theorem C1_counterexample :
    mkConnectorStep
      { name := some "My Step", connection_source := some "user:my_db",
        run := some { action := "test_connection" } } =
      Except.error "Field required: id" := rfl

/-- C1 amended: constructing a `ConnectorStep` without an `id` always
fails with the missing-required-field validation error; the name-derived
default id is never produced, because `id` is a required field and field
validation precedes the `set_default_id` model validator. -/
theorem C1_no_id_fails (r : RawStep) (h : r.id = none) :
    mkConnectorStep r = Except.error "Field required: id" := by
  simp [mkConnectorStep, stepFieldValidate, requiredField, h,
    Bind.bind, Except.bind, Except.map]

/-- C1 witness: the amended claim at a concrete id-less raw step. -/
theorem C1_witness :
    mkConnectorStep
      { name := some "Other Step", connection_source := some "user:my_db",
        run := some { action := "test_connection" } } =
      Except.error "Field required: id" :=
  C1_no_id_fails
    { name := some "Other Step", connection_source := some "user:my_db",
      run := some { action := "test_connection" } } rfl

/-- C2 counterexample: providing `source_paths = []` (present, with
`source_results` absent) still fails the source check, although the
claim says construction succeeds whenever at least one of the two
fields is provided. -/
theorem C2_counterexample :
    mkAggregateContentAction
      { action := "aggregate_content", source_paths := some [],
        target_path := some "vfs/out.md" } =
      Except.error
        "At least one of source_paths or source_results must be provided." :=
  rfl

/-- C2 amended: constructing an `AggregateContentAction` fails when both
`source_paths` and `source_results` are absent, and succeeds with
respect to the source check exactly when at least one of them is
provided with a truthy (non-empty) value. -/
theorem C2_source_check (sp sr : Option (List String)) :
    (mkAggregateContentAction
      { action := "aggregate_content", source_paths := sp,
        source_results := sr, target_path := some "vfs/out.md" }).isOk =
      (truthyOptList sp || truthyOptList sr) := by
  simp only [mkAggregateContentAction, requiredField, check_at_least_one_source,
    Bind.bind, Except.bind]
  cases hsp : truthyOptList sp <;> cases hsr : truthyOptList sr <;>
    simp [Except.isOk, Except.toBool]

/-- C3 counterexample: a concrete script whose two steps both carry the
identifier "a" is constructed successfully (no `DuplicateIdentifierError`
and no uniqueness check exist in the schema code). -/
theorem C3_counterexample :
    (mkConnectorScript
      { name := some "demo",
        steps := some
          [{ id := some "a", name := some "One",
             connection_source := some "user:my_db",
             run := some { action := "test_connection" } },
           { id := some "a", name := some "Two",
             connection_source := some "user:my_db",
             run := some { action := "test_connection" } }] }).map
      (fun s => s.steps.map (fun st => st.id)) =
      Except.ok [some "a", some "a"] := rfl

/-- C3 amended: `ConnectorScript` construction performs no identifier
validation of its own: a script in which a step has the empty identifier
and two steps share an identifier is accepted, with all identifiers kept
as given. -/
theorem C3_no_identifier_checks :
    (mkConnectorScript
      { name := some "demo",
        steps := some
          [{ id := some "", name := some "Zero",
             connection_source := some "user:my_db",
             run := some { action := "test_connection" } },
           { id := some "a", name := some "One",
             connection_source := some "user:my_db",
             run := some { action := "test_connection" } },
           { id := some "a", name := some "Two",
             connection_source := some "user:my_db",
             run := some { action := "test_connection" } }] }).map
      (fun s => s.steps.map (fun st => st.id)) =
      Except.ok [some "", some "a", some "a"] := rfl

/-- C4: the `action` discriminator is a closed union of exactly the nine
declared tags: validation succeeds only on those tags, and a raw action
whose tag is not among them is rejected with a validation error at
construction time. -/
theorem C4_closed_union (r : RawAction) :
    (∀ a, parseAction r = Except.ok a → r.action ∈ declaredActionTags) ∧
      (r.action ∉ declaredActionTags → ∃ e, parseAction r = Except.error e) := by
  constructor
  · intro a h
    unfold parseAction at h
    split at h <;> simp_all [declaredActionTags]
  · intro hnot
    unfold parseAction
    split <;> simp_all [declaredActionTags]

/-- C4 witness: a successfully parsed concrete tag is among the nine
declared tags, and a concrete unknown tag is rejected. -/
theorem C4_witness :
    ({ action := "test_connection" } : RawAction).action ∈ declaredActionTags ∧
      ∃ e, parseAction { action := "frobnicate" } = Except.error e :=
  ⟨(C4_closed_union { action := "test_connection" }).1
      (AnyConnectorAction.test_connection {}) rfl,
    (C4_closed_union { action := "frobnicate" }).2 (by decide)⟩

/-- C6 counterexample: a concrete script whose `script_input` maps a
name to the bare number 5 — a value that is not a parameter spec with
type/required/default — is accepted, with the value stored untouched;
`script_input` is an unvalidated `Dict[str, Any]`, not a parameter
schema. -/
theorem C6_counterexample :
    (mkConnectorScript
      { name := some "p", steps := some [],
        script_input := some [("x", Value.num 5)] }).map
      (fun s => s.script_input) =
      Except.ok (some [("x", Value.num 5)]) ∧
    isParamSpecValue (Value.num 5) = false := ⟨rfl, rfl⟩

/-- C6 amended: every `ConnectorScript` carries an optional
`script_input` mapping (a placeholder for data piped from stdin,
defaulting to the empty dict) whose values are arbitrary and
unconstrained — not parameter specs with a type, a required flag and a
default value. -/
theorem C6_script_input_unconstrained (l : List (String × Value)) :
    mkConnectorScript
      { name := some "p", steps := some [], script_input := some l } =
      Except.ok { name := "p", description := none, steps := [],
                  cache_config := none, script_input := some l } := rfl

/-- C8: `ConnectorStep.id` is a required string field, so field
validation never yields a model whose `id` is `None`; consequently the
branch of `set_default_id` guarded by `self.id is None` is unreachable,
and `set_default_id` is the identity on every successfully validated
step. -/
theorem C8_default_id_unreachable (r : RawStep) (m : ConnectorStep)
    (h : stepFieldValidate r = Except.ok m) :
    m.id ≠ none ∧ set_default_id m = m := by
  unfold stepFieldValidate at h
  obtain ⟨i, hi, h⟩ := bind_ok _ _ _ h
  obtain ⟨n, hn, h⟩ := bind_ok _ _ _ h
  obtain ⟨cs, hcs, h⟩ := bind_ok _ _ _ h
  obtain ⟨rr, hrr, h⟩ := bind_ok _ _ _ h
  obtain ⟨a, ha, h⟩ := bind_ok _ _ _ h
  injection h with h
  subst h
  exact ⟨by simp, rfl⟩

/-- C8 witness: a concrete validated step, on which `set_default_id` is
the identity. -/
theorem C8_witness :
    ({ id := some "s1", name := "Step One", description := none,
       connection_source := "user:my_db",
       run := AnyConnectorAction.test_connection {}, outputs := none,
       depends_on := none, if_condition := none,
       cache_config := none } : ConnectorStep).id ≠ none ∧
    set_default_id
      { id := some "s1", name := "Step One", description := none,
        connection_source := "user:my_db",
        run := AnyConnectorAction.test_connection {}, outputs := none,
        depends_on := none, if_condition := none, cache_config := none } =
      { id := some "s1", name := "Step One", description := none,
        connection_source := "user:my_db",
        run := AnyConnectorAction.test_connection {}, outputs := none,
        depends_on := none, if_condition := none, cache_config := none } :=
  C8_default_id_unreachable
    { id := some "s1", name := some "Step One",
      connection_source := some "user:my_db",
      run := some { action := "test_connection" } }
    { id := some "s1", name := "Step One", description := none,
      connection_source := "user:my_db",
      run := AnyConnectorAction.test_connection {}, outputs := none,
      depends_on := none, if_condition := none, cache_config := none }
    rfl

end CxCoreSchemas
